import Mathlib

/-!
Shallow embedding of the realtime voice-session orchestrator of the
voice-mom-ai-restaurant repository (the `ConsolePage` component, provided as
src/unnamed/part_001), together with theorems checking the specification's
claims against it.

Conventions: JS numbers that carry prices are modelled as exact rationals;
awaited calls that can reject are given an explicit success flag or an
`Option` error in the result; React `useState` variables and the devices the
session owns are gathered into explicit state structures that the handlers
update functionally, in program order.  The wavtools audio library
(`WavRecorder`, `WavStreamPlayer`) and the realtime client library are not
under src/; where one of their operations decides a claim it is modelled from
the spec's words, and the definition's doc comment says so.
-/

namespace VoiceOrder

/-- Source of a realtime event, `'client' | 'server'` (part_001 line 60). -/
inductive EventSource
  | client
  | server
deriving DecidableEq, Repr

/-- A `RealtimeEvent` log entry (part_001 lines 58-63): `time`, `source`, an
optional `count`, and the payload's `type` tag, the only payload field the
aggregation handler reads. -/
structure RealtimeEvent where
  time : String
  source : EventSource
  count : Option Nat
  eventType : String
deriving DecidableEq, Repr

/-- The `realtime.event` handler's log update (part_001 lines 753-764): when
the previous entry has the same `event.type`, it bumps that entry's `count`
starting from 0 when absent, `lastEvent.count = (lastEvent.count || 0) + 1`,
and replaces the last entry, `realtimeEvents.slice(0, -1).concat(lastEvent)`;
otherwise it appends the incoming event. -/
def recordEvent (realtimeEvents : List RealtimeEvent) (realtimeEvent : RealtimeEvent) :
    List RealtimeEvent :=
  match realtimeEvents.getLast? with
  | some lastEvent =>
      if lastEvent.eventType = realtimeEvent.eventType then
        realtimeEvents.dropLast
          ++ [{ lastEvent with count := some (lastEvent.count.getD 0 + 1) }]
      else
        realtimeEvents ++ [realtimeEvent]
  | none => realtimeEvents ++ [realtimeEvent]

/-- An incoming event with a given payload type; events delivered by the
channel carry no `count` field of their own. -/
def mkServerEvent (t : String) : RealtimeEvent :=
  { time := "", source := EventSource.server, count := none, eventType := t }

/-- Record a list of payload types, one by one, into an initially empty log. -/
def aggregateAll (types : List String) : List RealtimeEvent :=
  List.foldl recordEvent [] (types.map mkServerEvent)

/-- No two consecutive log entries share the same payload type. -/
def NoAdjacentSameType (log : List RealtimeEvent) : Prop :=
  log.Chain' fun a b => a.eventType ≠ b.eventType

/-- Whether the capture device is held and whether it is delivering chunks.
The wavtools `WavRecorder` file is not under src/; its begin/record/pause/end
states are taken from the spec's Capture Pipeline (spec 4.2). -/
structure CaptureState where
  acquired : Bool
  recording : Bool
deriving DecidableEq, Repr

/-- The `{trackId, offset}` pair destructured from a playback interruption
(part_001 lines 258-260 and 768-770). -/
structure InterruptResult where
  trackId : String
  offset : Nat
deriving DecidableEq, Repr

/-- Playback device state: whether the output device is connected and which
track, if any, is currently playing (with its played-sample offset). -/
structure PlaybackState where
  connected : Bool
  currentTrack : Option InterruptResult
deriving DecidableEq, Repr

/-- Modelled from the spec: the Playback Pipeline's `interrupt()` (wavtools
`WavStreamPlayer`, not under src/) stops the current track immediately and
returns `{trackId, samplesPlayed}` for the interrupted track, or nothing when
no track is playing (spec 4.3 and 8). -/
def playerInterrupt (p : PlaybackState) : PlaybackState × Option InterruptResult :=
  ({ p with currentTrack := none }, p.currentTrack)

/-- Modelled from the spec: the Capture Pipeline's `end()` (wavtools
`WavRecorder`, not under src/) releases the device (spec 4.2); the spec gives
it no failure mode. -/
def recorderEnd (_c : CaptureState) : CaptureState :=
  { acquired := false, recording := false }

/-- A latitude/longitude pair for the `coords`/`marker` state. -/
structure Coordinates where
  lat : ℚ
  lng : ℚ
deriving DecidableEq, Repr

/-- The default coordinates restored on disconnect (part_001 lines 227-230). -/
def defaultCoords : Coordinates :=
  { lat := 37.775593, lng := -122.418137 }

/-- The page state touched by connect and disconnect: the React state
variables (`isConnected`, `realtimeEvents`, `items`, `memoryKv`, `coords`,
`marker`) plus the devices and the channel the session owns.  Conversation
items are kept as their ids; their content plays no role in these claims. -/
structure FullState where
  isConnected : Bool
  realtimeEvents : List RealtimeEvent
  items : List String
  memoryKv : List (String × String)
  coords : Option Coordinates
  marker : Option Coordinates
  capture : CaptureState
  playback : PlaybackState
  channelOpen : Bool
  greetingSent : Bool
deriving DecidableEq, Repr

/-- Each of the three awaited acquisitions in `connectConversation` can
reject; there is no try/catch in part_001 lines 187-217, so the rejection
escapes the handler untouched.  The error surfaced is the failing stage's own
error, not a dedicated connection error. -/
inductive ConnError
  | captureBeginFailed
  | playbackConnectFailed
  | channelConnectFailed
deriving DecidableEq, Repr

/-- `connectConversation` (part_001 lines 187-217): it first sets
`isConnected := true` and clears the event log, then awaits
`wavRecorder.begin()`, `wavStreamPlayer.connect()` and `client.connect()` in
that order, and on success sends the greeting message and, when server VAD is
active, starts recording.  The `ok*` flags say whether each awaited
acquisition succeeds; when one rejects, the error escapes and every update
already made stays in place — nothing is released. -/
def connectConversation (okCapture okPlayback okChannel vadOn : Bool) (s : FullState) :
    FullState × Option ConnError :=
  let s1 : FullState := { s with isConnected := true, realtimeEvents := [] }
  if okCapture = false then
    (s1, some ConnError.captureBeginFailed)
  else
    let s2 : FullState := { s1 with capture := { acquired := true, recording := false } }
    if okPlayback = false then
      (s2, some ConnError.playbackConnectFailed)
    else
      let s3 : FullState := { s2 with playback := { s2.playback with connected := true } }
      if okChannel = false then
        (s3, some ConnError.channelConnectFailed)
      else
        ({ s3 with channelOpen := true, greetingSent := true,
                   capture := { acquired := true, recording := vadOn } }, none)

/-- The page state before any connection. -/
def idleFullState : FullState :=
  { isConnected := false, realtimeEvents := [], items := [], memoryKv := [],
    coords := some defaultCoords, marker := none,
    capture := { acquired := false, recording := false },
    playback := { connected := false, currentTrack := none },
    channelOpen := false, greetingSent := false }

/-- A sample mid-session state used to evaluate theorems on concrete input. -/
def activeSampleState : FullState :=
  { isConnected := true,
    realtimeEvents := [mkServerEvent "response.audio.delta"],
    items := ["item_1"],
    memoryKv := [("note", "extra sauce")],
    coords := some defaultCoords, marker := none,
    capture := { acquired := true, recording := true },
    playback := { connected := true,
                  currentTrack := some { trackId := "item_1", offset := 2400 } },
    channelOpen := true, greetingSent := true }

/-- `disconnectConversation` (part_001 lines 222-241): resets the React state
(`isConnected := false`, empty event log, items, memory, default coords, no
marker), then `client.disconnect()`, `wavRecorder.end()` and
`wavStreamPlayer.interrupt()`.  The library calls are modelled from the spec
as total release operations, so the whole function is total: it never
throws. -/
def disconnectConversation (s : FullState) : FullState :=
  let s1 : FullState := { s with isConnected := false, realtimeEvents := [],
                                 items := [], memoryKv := [],
                                 coords := some defaultCoords, marker := none }
  let s2 : FullState := { s1 with channelOpen := false }
  let s3 : FullState := { s2 with capture := recorderEnd s2.capture }
  { s3 with playback := (playerInterrupt s3.playback).1 }

/-- Observable operations the UI handlers issue, listed in program order. -/
inductive Action
  | setIsRecording (value : Bool)
  | interruptPlayback
  | cancelResponse (trackId : String) (offset : Nat)
  | record
  | pauseCapture
  | createResponse
  | updateTurnDetection (serverVad : Bool)
  | setCanPushToTalk (value : Bool)
deriving DecidableEq, Repr

/-- The cancellation step shared by `startRecording` and the
`conversation.interrupted` handler (part_001 lines 258-261 and 768-771):
`if (trackSampleOffset?.trackId) client.cancelResponse(trackId, offset)`.
The guard is JS truthiness of the string, so an empty track id sends
nothing. -/
def cancelActions (trackSampleOffset : Option InterruptResult) : List Action :=
  match trackSampleOffset with
  | some t => if t.trackId = "" then [] else [Action.cancelResponse t.trackId t.offset]
  | none => []

/-- The `conversation.interrupted` handler (part_001 lines 766-772): awaits
`wavStreamPlayer.interrupt()` and, when the result carries a track id, sends
`client.cancelResponse(trackId, offset)` with exactly that pair. -/
def conversationInterruptedHandler (p : PlaybackState) : PlaybackState × List Action :=
  ((playerInterrupt p).1, Action.interruptPlayback :: cancelActions (playerInterrupt p).2)

/-- `startRecording` (part_001 lines 252-263): sets the recording flag, awaits
`wavStreamPlayer.interrupt()`, propagates the track/offset cancellation when a
track was interrupted, and only then starts `wavRecorder.record` forwarding
captured chunks through `client.appendInputAudio`. -/
def startRecording (p : PlaybackState) : PlaybackState × List Action :=
  ((playerInterrupt p).1,
    Action.setIsRecording true :: Action.interruptPlayback ::
      (cancelActions (playerInterrupt p).2 ++ [Action.record]))

/-- `stopRecording` (part_001 lines 268-274): clears the recording flag,
awaits `wavRecorder.pause()`, then calls `client.createResponse()`. -/
def stopRecording : List Action :=
  [Action.setIsRecording false, Action.pauseCapture, Action.createResponse]

/-- Recorder status as `wavRecorder.getStatus()` reports it.  The wavtools
file is not under src/; the states are the spec's Capture Pipeline states. -/
inductive RecStatus
  | ended
  | paused
  | recording
deriving DecidableEq, Repr

/-- `changeTurnEndType` (part_001 lines 399-412): pauses the recorder only
when the new value is `'none'` and the recorder is recording, then updates the
channel's `turn_detection` setting (`null` for `'none'`, server VAD
otherwise), then starts recording when the new value is `'server_vad'` and
the client is connected, and finally sets the push-to-talk flag. -/
def changeTurnEndType (value : String) (status : RecStatus) (connected : Bool) :
    List Action :=
  (if value = "none" ∧ status = RecStatus.recording then [Action.pauseCapture] else [])
    ++ [Action.updateTurnDetection (if value = "none" then false else true)]
    ++ (if value = "server_vad" ∧ connected then [Action.record] else [])
    ++ [Action.setCanPushToTalk (if value = "none" then true else false)]

/-- One ordered item as the `initiate_order` tool receives it (part_001 lines
643-663): a name, an integer quantity and a price.  Prices are modelled as
exact rationals. -/
structure OrderItem where
  name : String
  quantity : Nat
  price : ℚ
deriving DecidableEq, Repr

/-- The handler's total (part_001 line 697):
`items_ordered.reduce((sum, item) => sum + item.price * item.quantity, 0)`. -/
def totalAmount (items_ordered : List OrderItem) : ℚ :=
  items_ordered.foldl (fun sum item => sum + item.price * (item.quantity : ℚ)) 0

/-- The order object POSTed to `/accept-order-details-voice` (part_001 lines
703-709 and 716-722). -/
structure Order where
  id : String
  restaurant_id : Option String
  items_ordered : List OrderItem
  totalAmount : ℚ
deriving DecidableEq, Repr

/-- The value the `initiate_order` handler returns to the channel (part_001
lines 737-742). -/
structure ToolCallResult where
  success : Bool
  message : String
  orderId : String
  totalAmount : ℚ
deriving DecidableEq, Repr

/-- Outcome of the awaited POST of the order (part_001 lines 716-730): an OK
response, a non-OK status (thrown and then caught on line 731), or a network
failure of the fetch itself. -/
inductive PostOutcome
  | ok
  | httpError (status : Nat)
  | networkError
deriving DecidableEq, Repr

/-- Everything observable about one run of the `initiate_order` handler: the
payload handed to the POST, whether the page navigated to the checkout url,
whether the catch block logged an error, and the value returned to the
channel. -/
structure InitiateOrderEffects where
  payloadSent : Order
  navigated : Bool
  errorLogged : Bool
  result : ToolCallResult
deriving DecidableEq, Repr

/-- The `initiate_order` tool handler (part_001 lines 693-747): computes the
total, builds the order object, POSTs it, navigates on success, and returns
`{success: true, message, orderId, totalAmount}`.  A non-OK response or a
network failure is caught and logged (lines 731-734), after which the handler
still returns the same success value. -/
def initiate_order (orderId : String) (restaurantId : Option String)
    (items_ordered : List OrderItem) (post : PostOutcome) : InitiateOrderEffects :=
  let total : ℚ := totalAmount items_ordered
  let order : Order :=
    { id := orderId, restaurant_id := restaurantId,
      items_ordered := items_ordered, totalAmount := total }
  { payloadSent := order,
    navigated := if post = PostOutcome.ok then true else false,
    errorLogged := if post = PostOutcome.ok then false else true,
    result := { success := true, message := "Order initiated successfully",
                orderId := orderId, totalAmount := total } }

/-- Steps of the session-setup effect (part_001 lines 539-795). -/
inductive SetupAction
  | updateInstructions (instructions : String)
  | updateTranscription
  | addTool (name : String)
  | registerHandler (eventName : String)
deriving DecidableEq, Repr

/-- The session-setup effect (part_001 lines 539-795): updates the session
instructions and the transcription setting, registers the `initiate_order`
tool only when `discoveryModeIsOn` is false (the guard on line 634), then
installs the four event handlers. -/
def sessionSetup (instructions : String) (discoveryModeIsOn : Bool) : List SetupAction :=
  [SetupAction.updateInstructions instructions, SetupAction.updateTranscription]
    ++ (if discoveryModeIsOn then [] else [SetupAction.addTool "initiate_order"])
    ++ [SetupAction.registerHandler "realtime.event",
        SetupAction.registerHandler "error",
        SetupAction.registerHandler "conversation.interrupted",
        SetupAction.registerHandler "conversation.updated"]

/-! ## Helper lemmas -/

/-- `recordEvent` on a log with last element `a`: merge into `a` when the
types agree, append otherwise. -/
theorem recordEvent_concat (l : List RealtimeEvent) (a e : RealtimeEvent) :
    recordEvent (l ++ [a]) e =
      if a.eventType = e.eventType then
        l ++ [{ a with count := some (a.count.getD 0 + 1) }]
      else (l ++ [a]) ++ [e] := by
  unfold recordEvent
  rw [List.getLast?_concat, List.dropLast_concat]

/-- Recording one event preserves the no-adjacent-duplicates invariant. -/
theorem noAdjacent_recordEvent (log : List RealtimeEvent) (e : RealtimeEvent)
    (h : NoAdjacentSameType log) : NoAdjacentSameType (recordEvent log e) := by
  rcases List.eq_nil_or_concat' log with rfl | ⟨l, a, rfl⟩
  · simp [recordEvent, NoAdjacentSameType]
  · rw [NoAdjacentSameType, recordEvent_concat]
    by_cases hae : a.eventType = e.eventType
    · rw [if_pos hae]
      rw [NoAdjacentSameType, List.chain'_append] at h
      rw [List.chain'_append]
      refine ⟨h.1, List.chain'_singleton _, ?_⟩
      intro x hx y hy
      simp only [List.head?, Option.mem_def, Option.some.injEq] at hy
      subst hy
      have := h.2.2 x hx a (by simp)
      simpa using this
    · rw [if_neg hae]
      rw [List.chain'_append]
      refine ⟨h, List.chain'_singleton _, ?_⟩
      intro x hx y hy
      simp only [List.getLast?_concat, Option.mem_def, Option.some.injEq] at hx
      simp only [List.head?, Option.mem_def, Option.some.injEq] at hy
      subst hx
      subst hy
      exact hae

/-- The fold computing the handler's total, written as a mapped sum. -/
theorem totalAmount_eq_sum (items_ordered : List OrderItem) :
    totalAmount items_ordered
      = (items_ordered.map (fun item => item.price * (item.quantity : ℚ))).sum := by
  have h : ∀ (l : List OrderItem) (a : ℚ),
      l.foldl (fun sum item => sum + item.price * (item.quantity : ℚ)) a
        = a + (l.map (fun item => item.price * (item.quantity : ℚ))).sum := by
    intro l
    induction l with
    | nil => intro a; simp
    | cons x xs ih =>
        intro a
        simp only [List.foldl_cons, List.map_cons, List.sum_cons, ih]
        ring
  simpa [totalAmount] using h items_ordered 0

/-! ## Claim theorems -/

/-- Claim C1, counterexample: with the capture acquisition succeeding and the
playback acquisition failing, `connectConversation` neither leaves the session
in the idle state (`isConnected` is already true) nor releases the acquired
capture device — refuting the claim that on partial failure every acquired
resource is released and the session is left idle. -/
theorem connect_failure_not_idle_counterexample :
    ¬ ((connectConversation true false true false idleFullState).1.isConnected = false
       ∧ (connectConversation true false true false idleFullState).1.capture.acquired
          = false) := by
  decide

/-- Claim C1, amended: `connectConversation` marks the session connected (and
clears the event log) before acquiring anything, so `isConnected` is true even
when an acquisition fails; a failing acquisition makes its own error escape —
no `ConnectionFailed` is surfaced — and nothing already acquired is released:
the capture device stays held exactly when its acquisition ran, playback and
the channel accumulate the same way, and the call succeeds exactly when all
three acquisitions succeed. -/
theorem connect_marks_connected_and_leaks_on_failure
    (okCapture okPlayback okChannel vadOn : Bool) :
    ((connectConversation okCapture okPlayback okChannel vadOn idleFullState).1.isConnected
        = true)
    ∧ ((connectConversation okCapture okPlayback okChannel vadOn idleFullState).2 = none
        ↔ okCapture = true ∧ okPlayback = true ∧ okChannel = true)
    ∧ ((connectConversation okCapture okPlayback okChannel vadOn
          idleFullState).1.capture.acquired = okCapture)
    ∧ ((connectConversation okCapture okPlayback okChannel vadOn
          idleFullState).1.playback.connected = (okCapture && okPlayback))
    ∧ ((connectConversation okCapture okPlayback okChannel vadOn
          idleFullState).1.channelOpen = (okCapture && okPlayback && okChannel))
    ∧ ((connectConversation okCapture okPlayback okChannel vadOn idleFullState).2
          = some ConnError.playbackConnectFailed
        ↔ okCapture = true ∧ okPlayback = false) := by
  cases okCapture <;> cases okPlayback <;> cases okChannel <;> cases vadOn <;> decide

/-- Claim C2, counterexample: recording the six event types A A B A A A into an
empty log does not produce entries with counts 2, 1, 3 — the handler starts a
merged entry's count at 0 when absent, so the stored counts are 1, absent,
2. -/
theorem aggregate_counts_counterexample :
    ¬ ((aggregateAll ["A", "A", "B", "A", "A", "A"]).map
          (fun e => (e.eventType, e.count))
        = [("A", some 2), ("B", some 1), ("A", some 3)]) := by
  decide

/-- Claim C2, amended: recording the six event types A A B A A A into an empty
log yields exactly three entries, of types A, B, A (aggregating 2, 1 and 3
events respectively), whose stored `count` fields are 1, absent and 2: an
entry aggregating n events carries count n - 1, absent when n = 1, because
`lastEvent.count = (lastEvent.count || 0) + 1` initialises from an absent
count. -/
theorem aggregate_example_amended :
    (aggregateAll ["A", "A", "B", "A", "A", "A"]).map
        (fun e => (e.eventType, e.count))
      = [("A", some 1), ("B", none), ("A", some 2)] := by
  decide

/-- Claim C3: `disconnectConversation` is idempotent — a second call leaves
exactly the state of the first (and, the library release operations being
total per the spec, never throws) — and each call stops capture, releases the
capture device, stops playback, closes the channel, and clears the
conversation items, the event log and the memory store. -/
theorem disconnect_idempotent_clears (s : FullState) :
    disconnectConversation (disconnectConversation s) = disconnectConversation s
    ∧ (disconnectConversation s).isConnected = false
    ∧ (disconnectConversation s).capture = { acquired := false, recording := false }
    ∧ (disconnectConversation s).playback.currentTrack = none
    ∧ (disconnectConversation s).channelOpen = false
    ∧ (disconnectConversation s).items = []
    ∧ (disconnectConversation s).realtimeEvents = []
    ∧ (disconnectConversation s).memoryKv = [] := by
  exact ⟨rfl, rfl, rfl, rfl, rfl, rfl, rfl, rfl⟩

/-- Claim C3, witness: the theorem evaluated at a concrete active state. -/
theorem disconnect_idempotent_clears_witness :
    disconnectConversation (disconnectConversation activeSampleState)
      = disconnectConversation activeSampleState :=
  (disconnect_idempotent_clears activeSampleState).1

/-- Claim C4: the `conversation.interrupted` handler interrupts the playback
pipeline (afterwards no track is playing); when the interruption reports a
track id and offset it sends exactly one cancel-response carrying exactly that
pair, and when no track was playing it sends no cancel-response. -/
theorem interrupted_handler_cancels_exact_offset (p : PlaybackState) :
    (conversationInterruptedHandler p).1.currentTrack = none
    ∧ (p.currentTrack = none →
        (conversationInterruptedHandler p).2 = [Action.interruptPlayback])
    ∧ (∀ t : InterruptResult, p.currentTrack = some t → t.trackId ≠ "" →
        (conversationInterruptedHandler p).2
          = [Action.interruptPlayback, Action.cancelResponse t.trackId t.offset]) := by
  refine ⟨rfl, ?_, ?_⟩
  · intro h
    simp [conversationInterruptedHandler, playerInterrupt, cancelActions, h]
  · intro t ht hne
    simp [conversationInterruptedHandler, playerInterrupt, cancelActions, ht, hne]

/-- Claim C4, witness: the theorem evaluated on a playing track. -/
theorem interrupted_handler_cancels_exact_offset_witness :
    (conversationInterruptedHandler
        { connected := true,
          currentTrack := some { trackId := "item_42", offset := 4800 } }).2
      = [Action.interruptPlayback, Action.cancelResponse "item_42" 4800] :=
  (interrupted_handler_cancels_exact_offset _).2.2
    { trackId := "item_42", offset := 4800 } rfl (by decide)

/-- Claim C5: the `initiate_order` handler's total is the sum over the items
of price times quantity, and that total appears both in the payload POSTed to
the fulfillment collaborator and in the returned tool result; in particular
one "Beef Shawarma" line with quantity 2 at price 12.99 totals 25.98. -/
theorem initiate_order_totalAmount_correct
    (orderId : String) (restaurantId : Option String)
    (items_ordered : List OrderItem) (post : PostOutcome) :
    (initiate_order orderId restaurantId items_ordered post).payloadSent.totalAmount
        = (items_ordered.map (fun item => item.price * (item.quantity : ℚ))).sum
    ∧ (initiate_order orderId restaurantId items_ordered post).result.totalAmount
        = (items_ordered.map (fun item => item.price * (item.quantity : ℚ))).sum
    ∧ totalAmount [{ name := "Beef Shawarma", quantity := 2, price := 12.99 }]
        = 25.98 := by
  refine ⟨?_, ?_, ?_⟩
  · simp [initiate_order, totalAmount_eq_sum]
  · simp [initiate_order, totalAmount_eq_sum]
  · simp only [totalAmount, List.foldl_cons, List.foldl_nil]
    norm_num

/-- Claim C5, witness: the theorem evaluated at the Beef Shawarma order. -/
theorem initiate_order_totalAmount_witness :
    (initiate_order "ord1234" none
        [{ name := "Beef Shawarma", quantity := 2, price := 12.99 }]
        PostOutcome.ok).result.totalAmount
      = (([{ name := "Beef Shawarma", quantity := 2, price := 12.99 }] :
            List OrderItem).map
          (fun item => item.price * (item.quantity : ℚ))).sum :=
  (initiate_order_totalAmount_correct "ord1234" none
    [{ name := "Beef Shawarma", quantity := 2, price := 12.99 }] PostOutcome.ok).2.1

/-- Claim C6: in manual mode, `startRecording` interrupts playback and, when a
track was interrupted, sends the track/offset cancellation, strictly before
the `record` action that begins forwarding captured chunks; `stopRecording`
pauses capture strictly before `createResponse` signals turn completion. -/
theorem manual_turn_ordering (p : PlaybackState) :
    (p.currentTrack = none →
        (startRecording p).2
          = [Action.setIsRecording true, Action.interruptPlayback, Action.record])
    ∧ (∀ t : InterruptResult, p.currentTrack = some t → t.trackId ≠ "" →
        (startRecording p).2
          = [Action.setIsRecording true, Action.interruptPlayback,
             Action.cancelResponse t.trackId t.offset, Action.record])
    ∧ stopRecording
        = [Action.setIsRecording false, Action.pauseCapture, Action.createResponse] := by
  refine ⟨?_, ?_, rfl⟩
  · intro h
    simp [startRecording, playerInterrupt, cancelActions, h]
  · intro t ht hne
    simp [startRecording, playerInterrupt, cancelActions, ht, hne]

/-- Claim C6, witness: the theorem evaluated on a playing track. -/
theorem manual_turn_ordering_witness :
    (startRecording
        { connected := true,
          currentTrack := some { trackId := "item_9", offset := 960 } }).2
      = [Action.setIsRecording true, Action.interruptPlayback,
         Action.cancelResponse "item_9" 960, Action.record] :=
  (manual_turn_ordering _).2.1 { trackId := "item_9", offset := 960 } rfl (by decide)

/-- Claim C7, counterexample: switching to continuous mode (`'server_vad'`)
while the recorder is recording issues no pause at all — the channel's
turn-detection setting is updated and recording restarted without first
pausing the capture pipeline, refuting the claim that every mode switch
performed while recording pauses first. -/
theorem changeTurnEndType_vad_no_pause_counterexample :
    changeTurnEndType "server_vad" RecStatus.recording true
        = [Action.updateTurnDetection true, Action.record,
           Action.setCanPushToTalk false]
    ∧ Action.pauseCapture ∉ changeTurnEndType "server_vad" RecStatus.recording true := by
  decide

/-- Claim C7, amended: only the switch to manual mode (`'none'`) pauses the
capture pipeline first (and only when it is recording) before reconfiguring
turn detection; the switch to continuous mode (`'server_vad'`) reconfigures
turn detection and then, when connected, starts recording, without ever
pausing first. -/
theorem changeTurnEndType_amended (status : RecStatus) (connected : Bool) :
    changeTurnEndType "none" status connected
        = (if status = RecStatus.recording then [Action.pauseCapture] else [])
          ++ [Action.updateTurnDetection false, Action.setCanPushToTalk true]
    ∧ changeTurnEndType "server_vad" status connected
        = [Action.updateTurnDetection true]
          ++ (if connected then [Action.record] else [])
          ++ [Action.setCanPushToTalk false] := by
  cases status <;> cases connected <;> decide

/-- Claim C7, witness for the amended theorem: the switch to manual while
recording pauses before reconfiguring. -/
theorem changeTurnEndType_amended_witness :
    changeTurnEndType "none" RecStatus.recording true
      = (if RecStatus.recording = RecStatus.recording then [Action.pauseCapture] else [])
        ++ [Action.updateTurnDetection false, Action.setCanPushToTalk true] :=
  (changeTurnEndType_amended RecStatus.recording true).1

/-- Claim C8: the `initiate_order` tool is registered during session setup
exactly when discovery mode is off. -/
theorem order_tool_iff_standard_mode (instructions : String) (discoveryModeIsOn : Bool) :
    SetupAction.addTool "initiate_order" ∈ sessionSetup instructions discoveryModeIsOn
      ↔ discoveryModeIsOn = false := by
  cases discoveryModeIsOn <;> simp [sessionSetup]

/-- Claim C8, witness: in standard mode the tool is registered. -/
theorem order_tool_iff_standard_mode_witness :
    SetupAction.addTool "initiate_order" ∈ sessionSetup "menu instructions" false :=
  (order_tool_iff_standard_mode "menu instructions" false).mpr rfl

/-- Claim C9: after any finite sequence of `recordEvent` operations starting
from the empty log, no two consecutive entries share the same type tag. -/
theorem aggregator_no_adjacent_same_type (events : List RealtimeEvent) :
    NoAdjacentSameType (List.foldl recordEvent [] events) := by
  have h : ∀ (evs log : List RealtimeEvent),
      NoAdjacentSameType log → NoAdjacentSameType (List.foldl recordEvent log evs) := by
    intro evs
    induction evs with
    | nil => intro log hlog; simpa using hlog
    | cons e evs ih =>
        intro log hlog
        exact ih _ (noAdjacent_recordEvent _ _ hlog)
  exact h events [] (by simp [NoAdjacentSameType])

/-- Claim C9, witness: the theorem evaluated on a concrete event list. -/
theorem aggregator_no_adjacent_same_type_witness :
    NoAdjacentSameType
      (List.foldl recordEvent []
        [mkServerEvent "A", mkServerEvent "A", mkServerEvent "B", mkServerEvent "A"]) :=
  aggregator_no_adjacent_same_type
    [mkServerEvent "A", mkServerEvent "A", mkServerEvent "B", mkServerEvent "A"]

/-- Claim C10: every run of the `initiate_order` handler returns
`{success: true, message: "Order initiated successfully", orderId,
totalAmount}` to the channel, whatever the POST's outcome; a failed or non-OK
POST is logged (and skips the checkout navigation) but never reaches the tool
result. -/
theorem initiate_order_always_reports_success
    (orderId : String) (restaurantId : Option String)
    (items_ordered : List OrderItem) (post : PostOutcome) :
    (initiate_order orderId restaurantId items_ordered post).result
        = { success := true, message := "Order initiated successfully",
            orderId := orderId, totalAmount := totalAmount items_ordered }
    ∧ ((initiate_order orderId restaurantId items_ordered post).errorLogged = true
        ↔ post ≠ PostOutcome.ok)
    ∧ ((initiate_order orderId restaurantId items_ordered post).navigated = true
        ↔ post = PostOutcome.ok) := by
  refine ⟨rfl, ?_, ?_⟩ <;> cases post <;> simp [initiate_order]

/-- Claim C10, witness: the success result survives a network failure. -/
theorem initiate_order_always_reports_success_witness :
    (initiate_order "ord0001" (some "azz1")
        [{ name := "Falafel Wrap", quantity := 1, price := 8.5 }]
        PostOutcome.networkError).result
      = { success := true, message := "Order initiated successfully",
          orderId := "ord0001",
          totalAmount := totalAmount
            [{ name := "Falafel Wrap", quantity := 1, price := 8.5 }] } :=
  (initiate_order_always_reports_success "ord0001" (some "azz1")
    [{ name := "Falafel Wrap", quantity := 1, price := 8.5 }]
    PostOutcome.networkError).1

end VoiceOrder
